import Mathlib

/-!
Shallow embedding of the control-plane glue of `meilisearch-http` (the
"transplant" sources): the snapshot subsystem (`index_controller/snapshot.rs`),
the actor handle implementations (`*/handle_impl.rs`), and server startup
(`main.rs`).  I/O outcomes (filesystem calls, actor replies) are abstracted
into explicit oracle records; every function additionally returns the list of
externally visible effects it performed, in order, so that frame and ordering
properties can be stated.
-/

namespace Transplant

/-- Abstract error payload standing for an `anyhow`/`io` error value. -/
inductive FsError where
  | code : Nat → FsError
deriving DecidableEq, Repr

/-! ## load_snapshot (src/meilisearch-http/src/index_controller/snapshot.rs, lines 103-137) -/

/-- Outcome of `load_snapshot`, one constructor per distinct exit of the Rust
function: success, the error of `compression::from_tar_gz` propagated after a
successful cleanup, the error of `std::fs::remove_dir_all` propagated by the
`?` inside the cleanup branch, and the two `bail!` messages. -/
inductive LoadResult where
  | ok
  | extractError : FsError → LoadResult
  | removeError : FsError → LoadResult
  | databaseAlreadyExists
  | snapshotMissing
deriving DecidableEq, Repr

/-- Filesystem mutations `load_snapshot` can perform: the archive extraction
into `db_path` and the `remove_dir_all(&db_path)` cleanup. -/
inductive FsEffect where
  | extractArchive
  | removeDbPath
deriving DecidableEq, Repr

/-- Oracle for the filesystem state and I/O outcomes seen by one call of
`load_snapshot`: whether `db_path.exists()` and `snapshot_path.exists()` hold
at entry, and what `from_tar_gz` / `remove_dir_all` would return if invoked
(`none` = success). -/
structure LoadFs where
  dbExists : Bool
  snapExists : Bool
  extractErr : Option FsError
  removeErr : Option FsError
deriving DecidableEq, Repr

/-- `load_snapshot(db_path, snapshot_path, ignore_snapshot_if_db_exists,
ignore_missing_snapshot)`: the if/else-if chain of the Rust function, returning
its result together with the filesystem effects performed. -/
def load_snapshot (fs : LoadFs)
    (ignoreSnapshotIfDbExists ignoreMissingSnapshot : Bool) :
    LoadResult × List FsEffect :=
  if !fs.dbExists && fs.snapExists then
    match fs.extractErr with
    | none => (LoadResult.ok, [FsEffect.extractArchive])
    | some e =>
      match fs.removeErr with
      | none => (LoadResult.extractError e, [FsEffect.extractArchive, FsEffect.removeDbPath])
      | some e2 => (LoadResult.removeError e2, [FsEffect.extractArchive, FsEffect.removeDbPath])
  else if fs.dbExists && !ignoreSnapshotIfDbExists then
    (LoadResult.databaseAlreadyExists, [])
  else if !fs.snapExists && !ignoreMissingSnapshot then
    (LoadResult.snapshotMissing, [])
  else
    (LoadResult.ok, [])

/-! ## SnapshotService (src/meilisearch-http/src/index_controller/snapshot.rs, lines 43-100)

The coordinator's behaviour is embedded as a trace of externally visible
effects, driven by an oracle record giving the outcome of each I/O step. -/

/-- Internal index identifier (`uuid::Uuid` in the source). -/
abbrev Uuid := Nat

/-- Abstract paths the snapshot coordinator touches. -/
inductive SPath where
  | snapshotRoot
  | tempDir
  | tempFile
  | snapshotFile : String → SPath
deriving DecidableEq, Repr

/-- Externally visible effects of the snapshot coordinator, in the order the
source performs them. -/
inductive SnapEvent where
  | createDirAll : SPath → SnapEvent
  | createTempDir
  | resolverSnapshot : SPath → SnapEvent
  | updateStoreSnapshot : Uuid → SPath → SnapEvent
  | indexWorkerSnapshot : Uuid → SPath → SnapEvent
  | archive : SPath → SPath → SnapEvent
  | persistSnapshotFile : String → SnapEvent
  | dropTempDir
  | logError
  | sleepPeriod
deriving DecidableEq, Repr

/-- Oracle for one `perform_snapshot` call: outcome of `fs::create_dir_all`,
of `tempfile::tempdir_in`, of `uuid_resolver_handle.snapshot` (list of live
ids on success), of each per-id update-store and index-worker snapshot, and of
`to_tar_gz` plus `NamedTempFile::persist` (`none` = success). -/
structure SnapshotEnv where
  createDirErr : Option FsError
  tempDirErr : Option FsError
  resolverResult : Except FsError (List Uuid)
  updateStoreSnapErr : Uuid → Option FsError
  indexWorkerSnapErr : Uuid → Option FsError
  archiveErr : Option FsError
  persistErr : Option FsError

/-- Modelled from the spec: the servicing of the update actor's `Snapshot`
message is not under `src/` (only its handle, `update_actor/handle_impl.rs`,
is).  Per the spec's snapshot protocol, step 5 — "For each id, in parallel,
invoke `UpdateStore.snapshot(id, tmp)` and `IndexWorker.snapshot(id, tmp)`" —
the task the coordinator launches for one id invokes the Update Store's dump
and the Index Worker's snapshot for that id into the temporary directory, and
fails iff either of the two fails. -/
def updateSnapshotTask (env : SnapshotEnv) (id : Uuid) :
    Option FsError × List SnapEvent :=
  ((env.updateStoreSnapErr id).orElse fun _ => env.indexWorkerSnapErr id,
   [SnapEvent.updateStoreSnapshot id SPath.tempDir,
    SnapEvent.indexWorkerSnapshot id SPath.tempDir])

/-- First error among the per-id snapshot tasks (`try_join_all` fails iff some
task fails). -/
def tasksError (env : SnapshotEnv) (uuids : List Uuid) : Option FsError :=
  uuids.foldr (fun id acc => ((updateSnapshotTask env id).1).orElse fun _ => acc) none

/-- Events of all per-id snapshot tasks.  The source builds the full list of
task futures eagerly and drives them jointly with `try_join_all`, so every
task's invocations appear, with no ordering enforced between distinct ids. -/
def tasksEvents (env : SnapshotEnv) (uuids : List Uuid) : List SnapEvent :=
  uuids.flatMap fun id => (updateSnapshotTask env id).2

/-- Tail of a `perform_snapshot` run once every per-id task has been
launched: `try_join_all` the tasks, then on success archive the temporary
directory into a named temp file and persist it as `<db_name>.snapshot`;
finally the temporary-directory guard is dropped on every path. -/
def performTail (env : SnapshotEnv) (dbName : String) (uuids : List Uuid) :
    Option FsError × List SnapEvent :=
  match tasksError env uuids with
  | some e => (some e, [SnapEvent.dropTempDir])
  | none =>
    match env.archiveErr with
    | some e =>
      (some e, [SnapEvent.archive SPath.tempDir SPath.tempFile, SnapEvent.dropTempDir])
    | none =>
      match env.persistErr with
      | some e =>
        (some e, [SnapEvent.archive SPath.tempDir SPath.tempFile, SnapEvent.dropTempDir])
      | none =>
        (none,
         [SnapEvent.archive SPath.tempDir SPath.tempFile,
          SnapEvent.persistSnapshotFile (dbName ++ ".snapshot"), SnapEvent.dropTempDir])

/-- `SnapshotService::perform_snapshot`: create the snapshot root, create a
temporary directory in it, snapshot the resolver there, stop if no live ids,
otherwise launch every per-id snapshot task and finish with `performTail`.
The temporary directory guard is dropped when the function returns, on every
path reached after its creation. -/
def perform_snapshot (env : SnapshotEnv) (dbName : String) :
    Option FsError × List SnapEvent :=
  match env.createDirErr with
  | some e => (some e, [SnapEvent.createDirAll SPath.snapshotRoot])
  | none =>
    match env.tempDirErr with
    | some e =>
      (some e, [SnapEvent.createDirAll SPath.snapshotRoot, SnapEvent.createTempDir])
    | none =>
      let ev2 := [SnapEvent.createDirAll SPath.snapshotRoot, SnapEvent.createTempDir,
                  SnapEvent.resolverSnapshot SPath.tempDir]
      match env.resolverResult with
      | Except.error e => (some e, ev2 ++ [SnapEvent.dropTempDir])
      | Except.ok uuids =>
        if uuids.isEmpty then
          (none, ev2 ++ [SnapEvent.dropTempDir])
        else
          let t := performTail env dbName uuids
          (t.1, ev2 ++ tasksEvents env uuids ++ t.2)

/-- One iteration of `SnapshotService::run`: perform the snapshot, log the
error if it failed, then sleep for `snapshot_period`. -/
def runIteration (env : SnapshotEnv) (dbName : String) : List SnapEvent :=
  let r := perform_snapshot env dbName
  r.2 ++ (if r.1.isSome then [SnapEvent.logError] else []) ++ [SnapEvent.sleepPeriod]

/-- Trace of the first `n` iterations of `SnapshotService::run`, the oracle of
iteration `k` being `envs k`. -/
def runTrace (envs : Nat → SnapshotEnv) (dbName : String) : Nat → List SnapEvent
  | 0 => []
  | n + 1 => runTrace envs dbName n ++ runIteration (envs n) dbName

/-! ## Actor handles (src/meilisearch-http/src/index_controller/STAR/handle_impl.rs)

Each handle wraps `mpsc` senders created by its constructor; the `handler!`
macro generates, per operation, a method that sends the message on a fixed
sender together with a oneshot reply channel and then awaits the reply with
`.expect("<Actor> has been killed")`. -/

/-- Kind of a `tokio::sync::mpsc` channel created by a handle constructor. -/
inductive ChannelSpec where
  | bounded : Nat → ChannelSpec
  | unbounded
deriving DecidableEq, Repr

/-- Channels created by `UuidResolverHandleImpl::new`: one `mpsc::channel(100)`. -/
def uuidResolverHandleChannels : List ChannelSpec := [ChannelSpec.bounded 100]

/-- Channels created by `UpdateActorHandleImpl::new`: one `mpsc::channel(100)`. -/
def updateActorHandleChannels : List ChannelSpec := [ChannelSpec.bounded 100]

/-- Channels created by `IndexActorHandleImpl::new`: `mpsc::channel(100)` for
the read sender and `mpsc::channel(100)` for the write sender. -/
def indexActorHandleChannels : List ChannelSpec :=
  [ChannelSpec.bounded 100, ChannelSpec.bounded 100]

/-- The ten operations the `handler!` invocation in
`index_actor/handle_impl.rs` generates methods for. -/
inductive IndexOp where
  | update
  | createIndex
  | search
  | settings
  | documents
  | document
  | delete
  | getIndexMeta
  | updateIndex
  | snapshot
deriving DecidableEq, Repr

/-- The two mailboxes an `IndexActorHandleImpl` holds. -/
inductive MailboxKind where
  | read
  | write
deriving DecidableEq, Repr

/-- Sender used by the generated method for each operation.  The macro body is
the same for every variant: `let _ = self.read_sender.send(msg).await`, so
every operation is sent on the read mailbox. -/
def indexActorHandleDispatch : IndexOp → MailboxKind := fun _ => MailboxKind.read

/-- Spec-side classification (from the claim's wording) of which index-actor
operations are writes: update, create_index, delete, update_index. -/
def specWriteOp : IndexOp → Bool
  | IndexOp.update => true
  | IndexOp.createIndex => true
  | IndexOp.delete => true
  | IndexOp.updateIndex => true
  | _ => false

/-- Whether the actor task behind a handle is still running. -/
inductive ActorState where
  | alive
  | dead
deriving DecidableEq, Repr

/-- What a call through a handle does to the calling task. -/
inductive HandleOutcome (α : Type) where
  | ok : α → HandleOutcome α
  | err : FsError → HandleOutcome α
  | crash : String → HandleOutcome α
deriving DecidableEq, Repr

/-- Body of a method generated by the `handler!` macros: the mailbox send's
result is discarded (`let _ = ... .send(msg).await`); if the actor is dead the
oneshot reply sender is dropped, `receiver.await` yields `Err`, and
`.expect(expectMsg)` panics in the calling task; if the actor is alive the
reply's error is propagated to the caller by `?`. -/
def handlerCall {α : Type} (expectMsg : String) (actor : ActorState)
    (reply : Except FsError α) : HandleOutcome α :=
  match actor with
  | ActorState.dead => HandleOutcome.crash expectMsg
  | ActorState.alive =>
    match reply with
    | Except.ok a => HandleOutcome.ok a
    | Except.error e => HandleOutcome.err e

/-- Panic message of the uuid-resolver handle's `.expect`. -/
def uuidResolverKilledMsg : String := "UuidResolverActor has been killed"

/-- Panic message of the update-actor handle's `.expect`. -/
def updateActorKilledMsg : String := "UpdateActor has been killed"

/-- Panic message of the index-actor handle's `.expect`. -/
def indexActorKilledMsg : String := "IndexActor has been killed"

/-! ## main (src/meilisearch-http/src/main.rs, lines 31-99) -/

/-- The command-line options `main` consults for the startup checks. -/
structure Opt where
  env : String
  masterKey : Option String
deriving DecidableEq, Repr

/-- Startup effects of `main`, in source order: `Data::new`,
`print_launch_resume`, binding the HTTP listener, serving. -/
inductive MainEvent where
  | dataNew
  | printLaunchResume
  | bindListener
  | serve
deriving DecidableEq, Repr

/-- Exit of `main`: clean exit, the mandatory-master-key error return, another
error propagated by `?` (`Data::new` or the bind), or the `unreachable!()`
panic on an unknown environment string. -/
inductive MainOutcome where
  | ok
  | masterKeyError
  | otherError : FsError → MainOutcome
  | crashed
deriving DecidableEq, Repr

/-- Oracle for the fallible startup steps: outcome of `Data::new` and of
binding the listener (`none` = success). -/
structure MainEnv where
  dataNewErr : Option FsError
  bindErr : Option FsError
deriving DecidableEq, Repr

/-- Startup sequence after the environment checks pass: construct the
application state (`Data::new(opt)?`), print the launch resume, bind the
listener and serve. -/
def mainProceed (menv : MainEnv) : MainOutcome × List MainEvent :=
  match menv.dataNewErr with
  | some e => (MainOutcome.otherError e, [MainEvent.dataNew])
  | none =>
    match menv.bindErr with
    | some e =>
      (MainOutcome.otherError e,
       [MainEvent.dataNew, MainEvent.printLaunchResume, MainEvent.bindListener])
    | none =>
      (MainOutcome.ok,
       [MainEvent.dataNew, MainEvent.printLaunchResume, MainEvent.bindListener,
        MainEvent.serve])

/-- `main`: in production, a missing master key returns the mandatory-key
error before anything else happens; otherwise (production with a key, or
development) startup proceeds; any other environment string hits
`unreachable!()`. -/
def mainRun (menv : MainEnv) (opt : Opt) : MainOutcome × List MainEvent :=
  match opt.env with
  | "production" =>
    match opt.masterKey with
    | none => (MainOutcome.masterKeyError, [])
    | some _ => mainProceed menv
  | "development" => mainProceed menv
  | _ => (MainOutcome.crashed, [])

/-! ## Concrete oracles used for evaluations -/

/-- All-success snapshot oracle with no live index. -/
def envNoIndexes : SnapshotEnv :=
  ⟨none, none, Except.ok [], fun _ => none, fun _ => none, none, none⟩

/-- All-success snapshot oracle with the single live index 7. -/
def envOneIndex : SnapshotEnv :=
  ⟨none, none, Except.ok [7], fun _ => none, fun _ => none, none, none⟩

/-- Snapshot oracle with five live indexes whose only failure is the
update-store snapshot of index 3. -/
def envFailingStore : SnapshotEnv :=
  ⟨none, none, Except.ok [1, 2, 3, 4, 5],
   fun id => if id = 3 then some (FsError.code 9) else none,
   fun _ => none, none, none⟩

/-! ## Theorems -/

/-- Helper: a per-id task only emits update-store and index-worker snapshot
invocations into the temporary directory. -/
lemma mem_tasksEvents_iff (env : SnapshotEnv) (uuids : List Uuid) (e : SnapEvent) :
    e ∈ tasksEvents env uuids ↔
      ∃ id ∈ uuids, e = SnapEvent.updateStoreSnapshot id SPath.tempDir ∨
        e = SnapEvent.indexWorkerSnapshot id SPath.tempDir := by
  simp only [tasksEvents, updateSnapshotTask, List.mem_flatMap, List.mem_cons,
    List.mem_singleton, List.not_mem_nil, or_false]

/-- Helper: no archive event occurs among the per-id tasks. -/
lemma archive_not_mem_tasksEvents (env : SnapshotEnv) (uuids : List Uuid)
    (a b : SPath) : SnapEvent.archive a b ∉ tasksEvents env uuids := by
  rw [mem_tasksEvents_iff]
  rintro ⟨id, -, h | h⟩ <;> exact SnapEvent.noConfusion h

/-- Helper: no persist event occurs among the per-id tasks. -/
lemma persist_not_mem_tasksEvents (env : SnapshotEnv) (uuids : List Uuid)
    (s : String) : SnapEvent.persistSnapshotFile s ∉ tasksEvents env uuids := by
  rw [mem_tasksEvents_iff]
  rintro ⟨id, -, h | h⟩ <;> exact SnapEvent.noConfusion h

/-- Helper: no sleep event occurs among the per-id tasks. -/
lemma sleep_not_mem_tasksEvents (env : SnapshotEnv) (uuids : List Uuid) :
    SnapEvent.sleepPeriod ∉ tasksEvents env uuids := by
  rw [mem_tasksEvents_iff]
  rintro ⟨id, -, h | h⟩ <;> exact SnapEvent.noConfusion h

/-- Helper: for each live id, both tier snapshots appear among the tasks. -/
lemma both_snapshots_mem_tasksEvents (env : SnapshotEnv) (uuids : List Uuid)
    (id : Uuid) (hid : id ∈ uuids) :
    SnapEvent.updateStoreSnapshot id SPath.tempDir ∈ tasksEvents env uuids ∧
      SnapEvent.indexWorkerSnapshot id SPath.tempDir ∈ tasksEvents env uuids := by
  constructor <;> · rw [mem_tasksEvents_iff]; exact ⟨id, hid, by simp⟩

/-- Helper: the run tail never emits a sleep. -/
lemma sleep_not_mem_performTail (env : SnapshotEnv) (dbName : String)
    (uuids : List Uuid) : SnapEvent.sleepPeriod ∉ (performTail env dbName uuids).2 := by
  unfold performTail
  cases tasksError env uuids <;> cases env.archiveErr <;>
    cases env.persistErr <;> simp

/-- Helper: the run tail always drops the temporary-directory guard. -/
lemma dropTempDir_mem_performTail (env : SnapshotEnv) (dbName : String)
    (uuids : List Uuid) : SnapEvent.dropTempDir ∈ (performTail env dbName uuids).2 := by
  unfold performTail
  cases tasksError env uuids <;> cases env.archiveErr <;>
    cases env.persistErr <;> simp

/-- Helper: a failed run tail never persists a snapshot file. -/
lemma persist_not_mem_performTail_of_err (env : SnapshotEnv) (dbName : String)
    (uuids : List Uuid) (e : FsError)
    (h : (performTail env dbName uuids).1 = some e) (s : String) :
    SnapEvent.persistSnapshotFile s ∉ (performTail env dbName uuids).2 := by
  revert h
  unfold performTail
  cases tasksError env uuids <;> cases env.archiveErr <;>
    cases env.persistErr <;> simp

/-- Helper: the coordinator never emits a sleep inside one `perform_snapshot`
call (sleeping happens only in the `run` loop, after the attempt). -/
lemma sleep_not_mem_perform (env : SnapshotEnv) (dbName : String) :
    SnapEvent.sleepPeriod ∉ (perform_snapshot env dbName).2 := by
  unfold perform_snapshot
  cases env.createDirErr
  case some => simp
  case none =>
  cases env.tempDirErr
  case some => simp
  case none =>
  rcases env.resolverResult with e | uuids
  · simp
  · rcases uuids with _ | ⟨u, us⟩
    · simp
    · simp [sleep_not_mem_tasksEvents, sleep_not_mem_performTail]

/-- Helper: every `perform_snapshot` trace starts with `create_dir_all` on the
snapshot root. -/
lemma perform_head (env : SnapshotEnv) (dbName : String) :
    (perform_snapshot env dbName).2.head? =
      some (SnapEvent.createDirAll SPath.snapshotRoot) := by
  unfold perform_snapshot
  cases env.createDirErr
  case some => simp
  case none =>
  cases env.tempDirErr
  case some => simp
  case none =>
  rcases env.resolverResult with e | uuids
  · simp
  · rcases uuids with _ | ⟨u, us⟩ <;> simp

/-- C1: in a snapshot run whose directory setup succeeds, for every id in the
set returned by the resolver's snapshot step, the coordinator's per-id task
invokes both the Update Store's snapshot and the Index Worker's snapshot for
that id into the temporary snapshot directory, and both invocations occur
strictly before any archive is produced: the trace splits as `pre ++ suf`
with both invocations in `pre` and no archive event in `pre`. -/
theorem c1_both_tier_snapshots_before_archive (env : SnapshotEnv)
    (dbName : String) (uuids : List Uuid)
    (hcd : env.createDirErr = none) (htd : env.tempDirErr = none)
    (hres : env.resolverResult = Except.ok uuids)
    (id : Uuid) (hid : id ∈ uuids) :
    ∃ pre suf, (perform_snapshot env dbName).2 = pre ++ suf ∧
      SnapEvent.updateStoreSnapshot id SPath.tempDir ∈ pre ∧
      SnapEvent.indexWorkerSnapshot id SPath.tempDir ∈ pre ∧
      ∀ a b, SnapEvent.archive a b ∉ pre := by
  have hne : uuids.isEmpty = false := by
    rcases uuids with _ | ⟨u, us⟩
    · exact absurd hid (List.not_mem_nil id)
    · rfl
  refine ⟨[SnapEvent.createDirAll SPath.snapshotRoot, SnapEvent.createTempDir,
      SnapEvent.resolverSnapshot SPath.tempDir] ++ tasksEvents env uuids,
    (performTail env dbName uuids).2, ?_, ?_, ?_, ?_⟩
  · unfold perform_snapshot
    simp [hcd, htd, hres, hne]
  · exact List.mem_append_right _ (both_snapshots_mem_tasksEvents env uuids id hid).1
  · exact List.mem_append_right _ (both_snapshots_mem_tasksEvents env uuids id hid).2
  · intro a b hmem
    rcases List.mem_append.mp hmem with h | h
    · simp at h
    · exact archive_not_mem_tasksEvents env uuids a b h

/-- C1 (witness): the run with the single live index 7 and every step
succeeding. -/
theorem c1_witness :
    (∃ pre suf, (perform_snapshot envOneIndex "data.ms").2 = pre ++ suf ∧
      SnapEvent.updateStoreSnapshot 7 SPath.tempDir ∈ pre ∧
      SnapEvent.indexWorkerSnapshot 7 SPath.tempDir ∈ pre ∧
      ∀ a b, SnapEvent.archive a b ∉ pre) :=
  c1_both_tier_snapshots_before_archive envOneIndex "data.ms" [7]
    rfl rfl rfl 7 (by simp)

/-- C5: if a snapshot run whose directory setup succeeded fails in any later
step (resolver snapshot, a per-index snapshot, archiving or persisting), then
no `<db_name>.snapshot` file is persisted in that run, the temporary snapshot
directory is dropped, the `run` loop only logs the error and sleeps until the
next period, and the loop goes on to its next iteration. -/
theorem c5_failed_run_discards_and_retries (env : SnapshotEnv)
    (dbName : String) (e : FsError)
    (hcd : env.createDirErr = none) (htd : env.tempDirErr = none)
    (hfail : (perform_snapshot env dbName).1 = some e) :
    (∀ s, SnapEvent.persistSnapshotFile s ∉ (perform_snapshot env dbName).2) ∧
    SnapEvent.dropTempDir ∈ (perform_snapshot env dbName).2 ∧
    runIteration env dbName =
      (perform_snapshot env dbName).2 ++ [SnapEvent.logError, SnapEvent.sleepPeriod] ∧
    (∀ envs n, envs n = env →
      runTrace envs dbName (n + 2) =
        runTrace envs dbName n ++ runIteration env dbName ++
          runIteration (envs (n + 1)) dbName) := by
  have hiter : runIteration env dbName =
      (perform_snapshot env dbName).2 ++ [SnapEvent.logError, SnapEvent.sleepPeriod] := by
    simp [runIteration, hfail]
  refine ⟨?_, ?_, hiter, ?_⟩
  · intro s
    revert hfail
    unfold perform_snapshot
    rw [hcd, htd]
    rcases env.resolverResult with e' | uuids
    · simp
    · rcases uuids with _ | ⟨u, us⟩
      · simp
      · intro hfail hmem
        simp only [List.isEmpty_cons, List.append_assoc] at hmem ⊢
        rcases List.mem_append.mp hmem with h | h
        · simp at h
        · rcases List.mem_append.mp h with h | h
          · exact persist_not_mem_tasksEvents env (u :: us) s h
          · exact persist_not_mem_performTail_of_err env dbName (u :: us) e
              (by simpa using hfail) s h
  · revert hfail
    unfold perform_snapshot
    rw [hcd, htd]
    rcases env.resolverResult with e' | uuids
    · simp
    · rcases uuids with _ | ⟨u, us⟩
      · simp
      · intro _
        simp only [List.isEmpty_cons, List.append_assoc]
        refine List.mem_append_right _ (List.mem_append_right _ ?_)
        exact dropTempDir_mem_performTail env dbName (u :: us)
  · intro envs n hn
    have h1 : runTrace envs dbName (n + 2) =
        runTrace envs dbName (n + 1) ++ runIteration (envs (n + 1)) dbName := rfl
    have h2 : runTrace envs dbName (n + 1) =
        runTrace envs dbName n ++ runIteration (envs n) dbName := rfl
    rw [h1, h2, hn]

/-- C5 (witness): five live indexes, the update-store snapshot of index 3
failing. -/
theorem c5_witness :
    ((∀ s, SnapEvent.persistSnapshotFile s ∉
        (perform_snapshot envFailingStore "data.ms").2) ∧
    SnapEvent.dropTempDir ∈ (perform_snapshot envFailingStore "data.ms").2 ∧
    runIteration envFailingStore "data.ms" =
      (perform_snapshot envFailingStore "data.ms").2 ++
        [SnapEvent.logError, SnapEvent.sleepPeriod] ∧
    (∀ envs n, envs n = envFailingStore →
      runTrace envs "data.ms" (n + 2) =
        runTrace envs "data.ms" n ++ runIteration envFailingStore "data.ms" ++
          runIteration (envs (n + 1)) "data.ms")) :=
  c5_failed_run_discards_and_retries envFailingStore "data.ms" (FsError.code 9)
    rfl rfl (by decide)

/-- C6 (counterexample): with the all-success oracle and no live index, the
trace of the first loop iteration opens with the snapshot attempt
(`create_dir_all`, temp dir, resolver snapshot) and the first
`sleep(snapshot_period)` only comes afterwards — a snapshot is attempted
before the first full period has elapsed, contrary to the claim. -/
theorem c6_counterexample :
    runTrace (fun _ => envNoIndexes) "data.ms" 1 =
      [SnapEvent.createDirAll SPath.snapshotRoot, SnapEvent.createTempDir,
       SnapEvent.resolverSnapshot SPath.tempDir, SnapEvent.dropTempDir,
       SnapEvent.sleepPeriod] ∧
    SnapEvent.sleepPeriod ∉ (runTrace (fun _ => envNoIndexes) "data.ms" 1).take 4 := by
  constructor <;> decide

/-- C6 (amended): in every iteration of the coordinator's loop, the
coordinator first performs the snapshot and then waits `snapshot_period`: the
iteration trace begins with the snapshot attempt and ends with the single
sleep event; in particular the first snapshot is attempted as soon as the
service starts, before the first period has elapsed. -/
theorem c6_snapshot_first_then_sleep (env : SnapshotEnv) (dbName : String) :
    ∃ pre, runIteration env dbName = pre ++ [SnapEvent.sleepPeriod] ∧
      SnapEvent.sleepPeriod ∉ pre ∧
      pre.head? = some (SnapEvent.createDirAll SPath.snapshotRoot) := by
  refine ⟨(perform_snapshot env dbName).2 ++
    (if (perform_snapshot env dbName).1.isSome then [SnapEvent.logError] else []),
    ?_, ?_, ?_⟩
  · unfold runIteration
    rw [List.append_assoc]
  · intro hmem
    rcases List.mem_append.mp hmem with h | h
    · exact sleep_not_mem_perform env dbName h
    · rcases Option.isSome (perform_snapshot env dbName).1 with _ | _ <;> simp_all
  · rw [List.head?_append_of_ne_nil]
    · exact perform_head env dbName
    · intro hnil
      have := perform_head env dbName
      rw [hnil] at this
      exact Option.noConfusion this

/-- C7: if the resolver's snapshot step returns the empty set of live ids (and
directory setup succeeded), the run returns successfully, invokes no per-index
snapshot of either tier, produces no archive and persists no
`<db_name>.snapshot` file; only the resolver dump into the dropped temporary
directory happened. -/
theorem c7_empty_set_commits_nothing (env : SnapshotEnv) (dbName : String)
    (hcd : env.createDirErr = none) (htd : env.tempDirErr = none)
    (hres : env.resolverResult = Except.ok []) :
    (perform_snapshot env dbName).1 = none ∧
    (∀ id p, SnapEvent.updateStoreSnapshot id p ∉ (perform_snapshot env dbName).2) ∧
    (∀ id p, SnapEvent.indexWorkerSnapshot id p ∉ (perform_snapshot env dbName).2) ∧
    (∀ a b, SnapEvent.archive a b ∉ (perform_snapshot env dbName).2) ∧
    (∀ s, SnapEvent.persistSnapshotFile s ∉ (perform_snapshot env dbName).2) := by
  unfold perform_snapshot
  rw [hcd, htd, hres]
  simp

/-- C7 (witness): the all-success oracle with no live index. -/
theorem c7_witness :
    ((perform_snapshot envNoIndexes "data.ms").1 = none ∧
    (∀ id p, SnapEvent.updateStoreSnapshot id p ∉
      (perform_snapshot envNoIndexes "data.ms").2) ∧
    (∀ id p, SnapEvent.indexWorkerSnapshot id p ∉
      (perform_snapshot envNoIndexes "data.ms").2) ∧
    (∀ a b, SnapEvent.archive a b ∉ (perform_snapshot envNoIndexes "data.ms").2) ∧
    (∀ s, SnapEvent.persistSnapshotFile s ∉
      (perform_snapshot envNoIndexes "data.ms").2)) :=
  c7_empty_set_commits_nothing envNoIndexes "data.ms" rfl rfl rfl

/-- C4 (counterexample): with `db_path` missing, `snap_path` present,
extraction failing with error 1 and the cleanup `remove_dir_all` failing with
error 2, `load_snapshot` surfaces the removal error, not the extraction error
the claim promises. -/
theorem c4_counterexample :
    (load_snapshot ⟨false, true, some (FsError.code 1), some (FsError.code 2)⟩
        false false).1 = LoadResult.removeError (FsError.code 2) ∧
    (load_snapshot ⟨false, true, some (FsError.code 1), some (FsError.code 2)⟩
        false false).1 ≠ LoadResult.extractError (FsError.code 1) := by
  decide

/-- C4 (amended): taking the cases in order — if `db_path` is missing and
`snap_path` is present, `load_snapshot` extracts the archive; on extraction
failure it removes the partially created `db_path` tree and surfaces the
extraction error, except that if the removal itself fails the removal error is
surfaced instead; otherwise, if `db_path` is present and
`ignore_snapshot_if_db_exists` is false it fails with the
database-already-exists error; otherwise, if `snap_path` is missing and
`ignore_missing_snapshot` is false it fails with the snapshot-missing error;
in every other case it succeeds as a no-op. -/
theorem c4_load_snapshot_cases (fs : LoadFs) (igDb igSnap : Bool) :
    (fs.dbExists = false → fs.snapExists = true →
      ((fs.extractErr = none →
        load_snapshot fs igDb igSnap = (LoadResult.ok, [FsEffect.extractArchive])) ∧
       (∀ e, fs.extractErr = some e → fs.removeErr = none →
        load_snapshot fs igDb igSnap =
          (LoadResult.extractError e,
           [FsEffect.extractArchive, FsEffect.removeDbPath])) ∧
       (∀ e e2, fs.extractErr = some e → fs.removeErr = some e2 →
        load_snapshot fs igDb igSnap =
          (LoadResult.removeError e2,
           [FsEffect.extractArchive, FsEffect.removeDbPath])))) ∧
    (fs.dbExists = true → igDb = false →
      load_snapshot fs igDb igSnap = (LoadResult.databaseAlreadyExists, [])) ∧
    (fs.snapExists = false → igSnap = false → (fs.dbExists = true → igDb = true) →
      load_snapshot fs igDb igSnap = (LoadResult.snapshotMissing, [])) ∧
    ((fs.dbExists = true → igDb = true) → (fs.snapExists = false → igSnap = true) →
      (fs.dbExists = false → fs.snapExists = false) →
      load_snapshot fs igDb igSnap = (LoadResult.ok, [])) := by
  rcases fs with ⟨db, snap, ex, rm⟩
  cases db <;> cases snap <;> cases igDb <;> cases igSnap <;>
    cases ex <;> cases rm <;> simp [load_snapshot]

/-- C4 (witness): the successful-extraction case at a concrete input. -/
theorem c4_witness :
    load_snapshot ⟨false, true, none, none⟩ false false =
      (LoadResult.ok, [FsEffect.extractArchive]) :=
  ((c4_load_snapshot_cases ⟨false, true, none, none⟩ false false).1 rfl rfl).1 rfl

/-- C10: whenever `db_path` exists at call time, `load_snapshot` either fails
(with the database-already-exists or the snapshot-missing error) or succeeds
as a no-op, and performs no filesystem effect at all — in particular it never
extracts into or removes the existing database directory. -/
theorem c10_existing_db_untouched (fs : LoadFs) (igDb igSnap : Bool)
    (h : fs.dbExists = true) :
    ((load_snapshot fs igDb igSnap).1 = LoadResult.databaseAlreadyExists ∨
      (load_snapshot fs igDb igSnap).1 = LoadResult.snapshotMissing ∨
      (load_snapshot fs igDb igSnap).1 = LoadResult.ok) ∧
    (load_snapshot fs igDb igSnap).2 = [] := by
  rcases fs with ⟨db, snap, ex, rm⟩
  cases h
  cases snap <;> cases igDb <;> cases igSnap <;> cases ex <;> cases rm <;>
    simp [load_snapshot]

/-- C10 (witness): a concrete call with an existing database directory. -/
theorem c10_witness :
    (((load_snapshot ⟨true, true, none, none⟩ false false).1 =
        LoadResult.databaseAlreadyExists ∨
      (load_snapshot ⟨true, true, none, none⟩ false false).1 =
        LoadResult.snapshotMissing ∨
      (load_snapshot ⟨true, true, none, none⟩ false false).1 = LoadResult.ok) ∧
    (load_snapshot ⟨true, true, none, none⟩ false false).2 = []) :=
  c10_existing_db_untouched ⟨true, true, none, none⟩ false false rfl

/-- Helper: once the environment checks pass, startup constructs the
application state, and when that succeeds it reaches the listener bind. -/
lemma mainProceed_events (menv : MainEnv) :
    MainEvent.dataNew ∈ (mainProceed menv).2 ∧
    (menv.dataNewErr = none → MainEvent.bindListener ∈ (mainProceed menv).2) := by
  unfold mainProceed
  cases menv.dataNewErr <;> cases menv.bindErr <;> simp

/-- Helper: in production mode with a master key, `main` proceeds to the
normal startup sequence. -/
lemma mainRun_production (menv : MainEnv) (k : String) :
    mainRun menv ⟨"production", some k⟩ = mainProceed menv := rfl

/-- Helper: in development mode, `main` proceeds to the normal startup
sequence for any master-key setting. -/
lemma mainRun_development (menv : MainEnv) (mk : Option String) :
    mainRun menv ⟨"development", mk⟩ = mainProceed menv := rfl

/-- C2 (code behaviour): the method bodies generated by the `handler!` macro
of `index_actor/handle_impl.rs` send every operation on the handle's read
mailbox — including the write operations `update`, `create_index`, `delete`
and `update_index` — so the write mailbox created by the constructor is never
used, contrary to the claimed read/write split. -/
theorem c2_all_ops_sent_on_read_mailbox :
    (specWriteOp IndexOp.update = true ∧
      indexActorHandleDispatch IndexOp.update = MailboxKind.read) ∧
    (specWriteOp IndexOp.createIndex = true ∧
      indexActorHandleDispatch IndexOp.createIndex = MailboxKind.read) ∧
    (specWriteOp IndexOp.delete = true ∧
      indexActorHandleDispatch IndexOp.delete = MailboxKind.read) ∧
    (specWriteOp IndexOp.updateIndex = true ∧
      indexActorHandleDispatch IndexOp.updateIndex = MailboxKind.read) ∧
    ∀ op, indexActorHandleDispatch op = MailboxKind.read := by
  exact ⟨⟨rfl, rfl⟩, ⟨rfl, rfl⟩, ⟨rfl, rfl⟩, ⟨rfl, rfl⟩, fun _ => rfl⟩

/-- C3 (counterexample): a call through each tier handle while its actor is
dead panics in the calling task with the tier's "has been killed" message
instead of returning an error the caller could map to `Internal`. -/
theorem c3_counterexample :
    @handlerCall Nat uuidResolverKilledMsg ActorState.dead (Except.ok 0) =
      HandleOutcome.crash uuidResolverKilledMsg ∧
    @handlerCall Nat updateActorKilledMsg ActorState.dead (Except.ok 0) =
      HandleOutcome.crash updateActorKilledMsg ∧
    @handlerCall Nat indexActorKilledMsg ActorState.dead (Except.ok 0) =
      HandleOutcome.crash indexActorKilledMsg := by
  exact ⟨rfl, rfl, rfl⟩

/-- C3 (amended): if the tier's actor has terminated, a request through its
handle does not surface as an error to the caller: the failed mailbox send is
discarded and awaiting the oneshot reply panics in the calling task with the
tier's "has been killed" expect message; only when the actor is alive is the
reply's error propagated to the caller. -/
theorem c3_dead_actor_panics {α : Type} (expectMsg : String)
    (reply : Except FsError α) :
    handlerCall expectMsg ActorState.dead reply = HandleOutcome.crash expectMsg ∧
    (∀ e, reply = Except.error e →
      handlerCall expectMsg ActorState.alive reply = HandleOutcome.err e) := by
  refine ⟨rfl, ?_⟩
  rintro e rfl
  rfl

/-- C3 (witness): the alive-actor error propagation at a concrete reply, and
the dead-actor panic. -/
theorem c3_witness :
    @handlerCall Nat uuidResolverKilledMsg ActorState.alive
        (Except.error (FsError.code 3)) = HandleOutcome.err (FsError.code 3) :=
  (c3_dead_actor_panics uuidResolverKilledMsg (Except.error (FsError.code 3))).2
    (FsError.code 3) rfl

/-- C8: started in production mode with no master key, `main` returns the
mandatory-master-key error with no startup effect performed — in particular
neither the application state (`Data::new`) nor the listener bind is reached;
in production with a master key, or in development mode, startup proceeds to
construct the application state and, when that succeeds, to bind the HTTP
listener. -/
theorem c8_production_requires_master_key (menv : MainEnv) (opt : Opt) :
    (opt.env = "production" → opt.masterKey = none →
      mainRun menv opt = (MainOutcome.masterKeyError, [])) ∧
    (opt.env = "production" → ∀ k, opt.masterKey = some k →
      MainEvent.dataNew ∈ (mainRun menv opt).2 ∧
      (menv.dataNewErr = none → MainEvent.bindListener ∈ (mainRun menv opt).2)) ∧
    (opt.env = "development" →
      MainEvent.dataNew ∈ (mainRun menv opt).2 ∧
      (menv.dataNewErr = none → MainEvent.bindListener ∈ (mainRun menv opt).2)) := by
  rcases opt with ⟨env, mk⟩
  refine ⟨?_, ?_, ?_⟩
  · rintro rfl rfl
    rfl
  · rintro rfl k rfl
    rw [mainRun_production menv k]
    exact mainProceed_events menv
  · rintro rfl
    rw [mainRun_development menv mk]
    exact mainProceed_events menv

/-- C8 (witness): concrete startups — production without a key errors with no
effects; production with a key constructs the application state. -/
theorem c8_witness :
    mainRun ⟨none, none⟩ ⟨"production", none⟩ = (MainOutcome.masterKeyError, []) ∧
    MainEvent.dataNew ∈ (mainRun ⟨none, none⟩ ⟨"production", some "key"⟩).2 :=
  ⟨(c8_production_requires_master_key ⟨none, none⟩ ⟨"production", none⟩).1 rfl rfl,
   ((c8_production_requires_master_key ⟨none, none⟩
      ⟨"production", some "key"⟩).2.1 rfl "key" rfl).1⟩

/-- C9: every mailbox channel created by the three tier-handle constructors —
one for the uuid resolver, one for the update actor, and the read and write
channels of the index actor — is a bounded channel of capacity 100, and none
is unbounded. -/
theorem c9_all_mailboxes_bounded_100 :
    (uuidResolverHandleChannels ++ updateActorHandleChannels ++
      indexActorHandleChannels).all
        (fun c => c == ChannelSpec.bounded 100) = true ∧
    ChannelSpec.unbounded ∉
      uuidResolverHandleChannels ++ updateActorHandleChannels ++
        indexActorHandleChannels := by
  constructor <;> decide

end Transplant
